import Mathlib

/-!
Verification of the `store` type of the proglog repository (`internal/log`,
file `store.go`): a file wrapper that appends length-framed records through
a buffered writer and reads them back positionally.

Bytes are modelled as `Nat` values (each byte is `< 256` in every concrete
state we build); the on-disk file and the `bufio.Writer`'s pending bytes are
`List Nat`.  Machine integers (`uint64`) are modelled as `Nat`: the only
arithmetic performed is addition of slice lengths with the constant 8, which
cannot overflow 64 bits for representable Go slices.
-/

namespace Proglog

/-- `lenWidth`: number of bytes used to store a record's length. -/
def lenWidth : Nat := 8

/-- The 8-byte big-endian encoding of a `uint64` value, as produced by
`binary.Write(s.buf, enc, uint64(len(p)))` with `enc = binary.BigEndian`. -/
def encodeUint64BE (v : Nat) : List Nat :=
  [v / 2 ^ 56 % 256, v / 2 ^ 48 % 256, v / 2 ^ 40 % 256, v / 2 ^ 32 % 256,
   v / 2 ^ 24 % 256, v / 2 ^ 16 % 256, v / 2 ^ 8 % 256, v % 256]

/-- Big-endian decoding of a byte list, as computed by `enc.Uint64(size)`
on the 8 bytes read for the length field. -/
def decodeUint64BE (bs : List Nat) : Nat :=
  bs.foldl (fun acc b => acc * 256 + b) 0

/-- State of a `store`: the underlying file's on-disk contents (`file`), the
bytes sitting in the `bufio.Writer` that have not yet been forwarded to the
file (`buf`), the `size` field, and whether the file handle has been
closed. -/
structure StoreState where
  file : List Nat
  buf : List Nat
  size : Nat
  closed : Bool
deriving Repr, DecidableEq

/-- `newStore(f)`: the `size` field is recovered from the file's current
length on disk (`os.Stat`), and a fresh `bufio.Writer` holds no bytes. -/
def newStore (fileBytes : List Nat) : StoreState :=
  { file := fileBytes, buf := [], size := fileBytes.length, closed := false }

/-- `store.Append(p)`: takes `pos = s.size`, writes the 8-byte big-endian
encoding of `len(p)` followed by the bytes of `p` to the buffered writer,
computes `n = w + lenWidth` with `w = len(p)`, and then executes the
source's `s.size = n` (an assignment, exactly as written in the source).
Returns `(n, pos, s')`. -/
def storeAppend (s : StoreState) (p : List Nat) : Nat × Nat × StoreState :=
  let pos := s.size
  let w := p.length
  let n := w + lenWidth
  (n, pos, { s with buf := s.buf ++ encodeUint64BE p.length ++ p, size := n })

/-- `bufio.Writer.Flush`: forwards all buffered bytes to the end of the
underlying file and empties the buffer. -/
def flushStore (s : StoreState) : StoreState :=
  { s with file := s.file ++ s.buf, buf := [] }

/-- `os.File.ReadAt` into a caller buffer of length `len` at byte offset
`off`: succeeds with exactly `len` bytes when that many are available from
`off`; a short read is reported as an error (`none`), and the Go callers
here all discard the partially filled buffer on error. -/
def fileReadAt (file : List Nat) (off len : Nat) : Option (List Nat) :=
  if off + len ≤ file.length then some ((file.drop off).take len) else none

/-- The positional phase of `store.Read` after its flush: read the 8-byte
length field at `pos`, decode it big-endian, then read that many bytes
starting at `pos + lenWidth`. -/
def readRecord (file : List Nat) (pos : Nat) : Option (List Nat) :=
  match fileReadAt file pos lenWidth with
  | none => none
  | some sizeBytes => fileReadAt file (pos + lenWidth) (decodeUint64BE sizeBytes)

/-- `store.Read(pos)`: flush the buffered writer into the file, then perform
the two positional reads on the (now flushed) file.  Returns the result
together with the post-state. -/
def storeRead (s : StoreState) (pos : Nat) : Option (List Nat) × StoreState :=
  (readRecord (flushStore s).file pos, flushStore s)

/-- `store.ReadAt(p, off)` with `len = len(p)`: flush the buffered writer,
then `os.File.ReadAt` at offset `off`. -/
def storeReadAt (s : StoreState) (len off : Nat) : Option (List Nat) × StoreState :=
  (fileReadAt (flushStore s).file off len, flushStore s)

/-- `store.Close` under an environment flag `writeOk` saying whether the
file write issued by `bufio.Writer.Flush` would succeed (with an empty
buffer, `Flush` performs no write and always succeeds).  On flush failure
the error is returned before `s.File.Close()` is reached, so the state is
unchanged and the handle stays open; on success the buffered bytes reach
the file and the handle is closed.  The first component is `true` iff no
error was returned. -/
def closeStore (writeOk : Bool) (s : StoreState) : Bool × StoreState :=
  if s.buf.isEmpty || writeOk then
    (true, { file := s.file ++ s.buf, buf := [], size := s.size, closed := true })
  else
    (false, s)

/-- Run a sequence of `Append` calls, collecting the returned positions. -/
def appendAll (s : StoreState) (ps : List (List Nat)) : List Nat × StoreState :=
  match ps with
  | [] => ([], s)
  | p :: rest =>
    let r := storeAppend s p
    let t := appendAll r.2.2 rest
    (r.2.1 :: t.1, t.2)

/-- C4: for every record `p`, a successful `Append(p)` returns the byte count
`lenWidth + len(p)`, returns as position the store's `size` at the start of
the call, and emits to the buffered writer exactly the 8-byte big-endian
encoding of `len(p)` immediately followed by `p`. -/
theorem append_returns_framed_write (s : StoreState) (p : List Nat) :
    (storeAppend s p).1 = lenWidth + p.length ∧
    (storeAppend s p).2.1 = s.size ∧
    (storeAppend s p).2.2.buf = s.buf ++ (encodeUint64BE p.length ++ p) ∧
    (encodeUint64BE p.length).length = lenWidth := by
  refine ⟨Nat.add_comm p.length lenWidth, rfl, ?_, rfl⟩
  simp [storeAppend]

/-- C5: `Read` and `ReadAt` both flush the buffered writer first — their
post-state is `flushStore s` and their positional reads are performed on
`s.file ++ s.buf` — while `Append` itself leaves the file untouched; hence
after an `Append`, the file seen by the flush inside any subsequent read
ends with the appended frame. -/
theorem read_path_flushes_first (s : StoreState) (pos len off : Nat) (p : List Nat) :
    (storeRead s pos).2 = flushStore s ∧
    (storeRead s pos).1 = readRecord (s.file ++ s.buf) pos ∧
    (storeReadAt s len off).2 = flushStore s ∧
    (storeReadAt s len off).1 = fileReadAt (s.file ++ s.buf) off len ∧
    (storeAppend s p).2.2.file = s.file ∧
    (flushStore (storeAppend s p).2.2).file = s.file ++ s.buf ++ encodeUint64BE p.length ++ p := by
  refine ⟨rfl, rfl, rfl, rfl, rfl, ?_⟩
  simp [flushStore, storeAppend]

/-- C6: `Read(pos)` returns an error (no record) whenever `pos` is at or
beyond the flushed end of the file, and also whenever the 8-byte length
field read at `pos` announces more payload bytes than remain in the file
(a short read), rather than returning truncated data. -/
theorem read_rejects_out_of_range (s : StoreState) (pos : Nat) (sb : List Nat) :
    ((s.file ++ s.buf).length ≤ pos → (storeRead s pos).1 = none) ∧
    (fileReadAt (s.file ++ s.buf) pos lenWidth = some sb →
      (s.file ++ s.buf).length < pos + lenWidth + decodeUint64BE sb →
      (storeRead s pos).1 = none) := by
  constructor
  · intro h
    have hn : fileReadAt (s.file ++ s.buf) pos lenWidth = none := by
      simp only [fileReadAt, lenWidth, ite_eq_right_iff]
      intro hle
      exact absurd hle (by omega)
    simp [storeRead, flushStore, readRecord, hn]
  · intro h1 h2
    have hn : fileReadAt (s.file ++ s.buf) (pos + lenWidth) (decodeUint64BE sb) = none := by
      simp only [fileReadAt, ite_eq_right_iff]
      intro hle
      exact absurd hle (by omega)
    simp [storeRead, flushStore, readRecord, h1, hn]

/-- C6 witness: on the concrete store whose flushed file is the 8-byte
field announcing 9 payload bytes followed by a single byte, reading at
position 20 (past the end) and at position 0 (short payload) both error. -/
theorem read_rejects_out_of_range_witness :
    (storeRead ⟨[0, 0, 0, 0, 0, 0, 0, 9, 1], [], 9, false⟩ 20).1 = none ∧
    (storeRead ⟨[0, 0, 0, 0, 0, 0, 0, 9, 1], [], 9, false⟩ 0).1 = none := by
  constructor
  · exact (read_rejects_out_of_range ⟨[0, 0, 0, 0, 0, 0, 0, 9, 1], [], 9, false⟩ 20 []).1
      (by decide)
  · exact (read_rejects_out_of_range ⟨[0, 0, 0, 0, 0, 0, 0, 9, 1], [], 9, false⟩ 0
      [0, 0, 0, 0, 0, 0, 0, 9]).2 (by decide) (by decide)

/-- C7: `newStore` over an existing file of length `k` yields `size = k`
(recovered from the file, not assumed zero), and the first subsequent
`Append` returns position `k`. -/
theorem newStore_recovers_size (fileBytes p : List Nat) :
    (newStore fileBytes).size = fileBytes.length ∧
    (storeAppend (newStore fileBytes) p).2.1 = fileBytes.length :=
  ⟨rfl, rfl⟩

/-- C8: when `Close` succeeds, every buffered byte has reached the file,
the buffer is empty and the handle is closed; when it reports an error, the
state is unchanged (file not closed, buffered bytes retained), and that
happens only because the buffer was nonempty and the flush's write
failed. -/
theorem close_flush_error_leaves_open (s : StoreState) (writeOk : Bool) :
    ((closeStore writeOk s).1 = true →
      (closeStore writeOk s).2.file = s.file ++ s.buf ∧
      (closeStore writeOk s).2.buf = [] ∧
      (closeStore writeOk s).2.closed = true) ∧
    ((closeStore writeOk s).1 = false →
      (closeStore writeOk s).2 = s ∧ writeOk = false ∧ s.buf ≠ []) := by
  obtain ⟨f, b, sz, c⟩ := s
  cases b <;> cases writeOk <;> simp [closeStore]

/-- C8 witness: with buffered byte `2` still pending, a failing flush
leaves the store exactly as it was, while a successful close moves the
byte into the file, empties the buffer and closes the handle. -/
theorem close_flush_error_leaves_open_witness :
    ((closeStore true ⟨[1], [2], 1, false⟩).2.file = [1, 2] ∧
      (closeStore true ⟨[1], [2], 1, false⟩).2.buf = [] ∧
      (closeStore true ⟨[1], [2], 1, false⟩).2.closed = true) ∧
    ((closeStore false ⟨[1], [2], 1, false⟩).2 = ⟨[1], [2], 1, false⟩ ∧
      false = false ∧ ([2] : List Nat) ≠ []) :=
  ⟨(close_flush_error_leaves_open ⟨[1], [2], 1, false⟩ true).1 rfl,
   (close_flush_error_leaves_open ⟨[1], [2], 1, false⟩ false).2 rfl⟩

/-- C10: `Read` and `ReadAt` preserve the `size` field and the logical
content `file ++ buf`; their only effect is the flush, so any later read
returns the same record and any later append is assigned the same
position as it would have been before the reads. -/
theorem reads_frame_invariant (s : StoreState) (pos len off : Nat) :
    (storeRead s pos).2.size = s.size ∧
    (storeRead s pos).2.file ++ (storeRead s pos).2.buf = s.file ++ s.buf ∧
    (storeReadAt s len off).2.size = s.size ∧
    (storeReadAt s len off).2.file ++ (storeReadAt s len off).2.buf = s.file ++ s.buf ∧
    (∀ q, (storeRead (storeRead s pos).2 q).1 = (storeRead s q).1) ∧
    (∀ p, (storeAppend (storeRead s pos).2 p).2.1 = (storeAppend s p).2.1) := by
  refine ⟨rfl, ?_, rfl, ?_, ?_, fun p => rfl⟩
  · simp [storeRead, flushStore]
  · simp [storeReadAt, flushStore]
  · intro q
    simp [storeRead, flushStore]

/-- C1 (failing): after `Append [97]; Append [98]` on a store over an empty
file, the `size` field is 9 — the width of the last frame alone — while the
logical end of the file including buffered bytes is 18; the source's
`s.size = n` assignment discards the size accumulated before the call. -/
theorem size_after_two_appends_is_last_frame_only :
    (storeAppend (storeAppend (newStore []) [97]).2.2 [98]).2.2.size = 9 ∧
    ((storeAppend (storeAppend (newStore []) [97]).2.2 [98]).2.2.file ++
      (storeAppend (storeAppend (newStore []) [97]).2.2 [98]).2.2.buf).length = 18 := by
  decide

/-- C2 (failing): appending `[1]`, `[]`, `[2]` to a store over an empty file
returns positions 0, 9, 8, and `Read` at the third returned position (8)
errors instead of returning `[2]`: position 8 falls inside the second
frame, and the bytes decoded there announce an impossibly large length. -/
theorem third_append_position_read_fails :
    (appendAll (newStore []) [[1], [], [2]]).1 = [0, 9, 8] ∧
    (storeRead (appendAll (newStore []) [[1], [], [2]]).2 8).1 = none := by
  decide

/-- C3 (failing): the `size` field is not monotonic across appends — after
`Append [1, 1]` it is 10, and after the subsequent `Append [1]` it drops
to 9. -/
theorem size_decreases_across_appends :
    (storeAppend (newStore []) [1, 1]).2.2.size = 10 ∧
    (storeAppend (storeAppend (newStore []) [1, 1]).2.2 [1]).2.2.size = 9 := by
  decide

/-- C9 (failing): after `Append [5]; Append [6]`, an `Append []` does return
`n = 8` and the current position (9), but `Read` at that position returns
the earlier record `[6]`, not the empty record: position 9 is where the
second frame's length field sits, because the `size` field no longer
tracks the logical end of the file. -/
theorem empty_append_position_reads_wrong_record :
    (storeAppend (appendAll (newStore []) [[5], [6]]).2 []).1 = 8 ∧
    (storeAppend (appendAll (newStore []) [[5], [6]]).2 []).2.1 = 9 ∧
    (storeRead (storeAppend (appendAll (newStore []) [[5], [6]]).2 []).2.2 9).1 = some [6] := by
  decide

end Proglog
